import Mathlib

/-!
Verification of the interview orchestration core of the Reviewer repository.

The JavaScript source is shallowly embedded: the mutable global `session`
becomes an explicit `Session` value threaded through the operations, the
asynchronous agent calls become oracle parameters of type
`Except String (Option TopicAgentOutput)` (an exception or promise rejection
is `Except.error`, a resolved - possibly null - JSON value is `Except.ok`),
and the localStorage key-value store becomes the values written to /
read from it.  JavaScript numbers that the code only ever uses as array
indices or counts are modelled as `Nat`; `importance` and `score` are `Int`;
`confidence` (a JSON number in 0..1) is modelled as `Rat`.
-/

namespace Reviewer

/-- Topic status constants (constants file, `TOPIC_STATUS`). -/
inductive TopicStatus where
  | not_started
  | probing
  | done
deriving DecidableEq, Repr

/-- A planned interview topic (session state module, typedef `Topic`). -/
structure Topic where
  name : String
  importance : Int
  required_level : String
  merged_from : List String
deriving DecidableEq, Repr

/-- One question/answer turn (typedef `QAPair`). -/
structure QAPair where
  question : String
  answer : String
deriving DecidableEq, Repr

/-- A per-topic assessment (typedef `Verdict`). -/
structure Verdict where
  name : String
  assessed_level : String
  score : Int
  confidence : Rat
  strengths : List String
  gaps : List String
deriving DecidableEq, Repr

/-- Per-topic progress record (typedef `TopicState`). -/
structure TopicState where
  status : TopicStatus
  qaList : List QAPair
  verdict : Option Verdict
deriving DecidableEq, Repr

/-- The question object inside a TopicAgent response. -/
structure Question where
  text : String
deriving DecidableEq, Repr

/-- A (non-null) TopicAgent JSON response.  `status` is kept as a raw string
because the validators must reject statuses other than "ask"/"final".
The field `schemaOk` carries the verdict of the generic JSON-schema walk
`validateResponse(ROLE_NAMES.TOPIC_AGENT, output)`: that walk is a pure
function of the raw JSON value, which we do not model field by field, so its
Boolean outcome is carried on the modelled value. -/
structure TopicAgentOutput where
  schemaOk : Bool
  status : String
  question : Option Question
  verdict : Option Verdict
deriving DecidableEq, Repr

/-- A cached speculative question (`prefetchedData` in the prefetch manager). -/
structure PrefetchEntry where
  text : String
  topicIndex : Nat
  topicAgentOutput : TopicAgentOutput
deriving DecidableEq, Repr

/-- The data a background verdict promise closes over that is relevant to the
session state: the topic index captured at launch time
(`const currentTopicIndex = session.currentTopicIndex;` in
`handleAnswerSubmit` before `moveToNextTopic`). -/
structure BgVerdictTask where
  capturedIndex : Nat
deriving DecidableEq, Repr

/-- The session object (session state module, typedef `Session`).
`topicStates` is an object keyed by the dense indices 0..topics.length-1 in
the source and is modelled as a list indexed by position;
`prefetchedQuestions` is sparse and is modelled as an association list. -/
structure Session where
  apiKey : String
  topics : List Topic
  topicStates : List TopicState
  currentTopicIndex : Nat
  enableFinalSummary : Bool
  maxQuestionsPerTopic : Nat
  prefetchedQuestions : List (Nat × PrefetchEntry)
  backgroundVerdictPromises : List BgVerdictTask
deriving DecidableEq, Repr

/-- The UI-state current question (ui-state module, typedef `CurrentQuestion`). -/
structure CurrentQuestion where
  text : String
  topicIndex : Nat
deriving DecidableEq, Repr

deriving instance DecidableEq for Except

/-- Drops leading whitespace characters from a character list. -/
def dropLeadingWs : List Char → List Char
  | [] => []
  | c :: cs => if c.isWhitespace then dropLeadingWs cs else c :: cs

/-- JavaScript `String.prototype.trim()`: removes whitespace from both ends. -/
def jsTrim (s : String) : String :=
  String.mk ((dropLeadingWs (dropLeadingWs s.data).reverse).reverse)

/-- JavaScript `a || b` for a number modelled as `Nat` (0 is falsy). -/
def jsOrNat (a b : Nat) : Nat :=
  if a = 0 then b else a

/-- JavaScript `a || b` for a string ("" is falsy). -/
def jsOrStr (a b : String) : String :=
  if a = "" then b else a

/-! ## Topic Session State operations (session state module) -/

/-- `getCurrentTopic`: null once the cursor exceeds bounds. -/
def getCurrentTopic (s : Session) : Option Topic :=
  if s.currentTopicIndex < s.topics.length then
    s.topics[s.currentTopicIndex]?
  else none

/-- `getCurrentTopicState`: null once the cursor exceeds bounds (an absent
`topicStates` slot, undefined in the source, is also mapped to `none`). -/
def getCurrentTopicState (s : Session) : Option TopicState :=
  if s.currentTopicIndex < s.topics.length then
    s.topicStates[s.currentTopicIndex]?
  else none

/-- The per-topic field checks of `initializeSession`, in source order; the
result is the error message of the first failing check.  `!topic.name` is
true for the empty string; a `required_level` outside the recognized list
fails the `includes` check (the empty string is also outside that list). -/
def topicValidationError (t : Topic) : Option String :=
  if t.name = "" then some "missing name"
  else if ¬ (1 ≤ t.importance ∧ t.importance ≤ 5) then some "invalid importance"
  else if ¬ (t.required_level = "basic" ∨ t.required_level = "solid" ∨
             t.required_level = "deep") then some "invalid required_level"
  else none

/-- `initializeSession(topics, apiKey, maxQuestionsPerTopic, enableFinalSummary)`:
throws (modelled as `Except.error`) on an empty list or on the first invalid
topic; otherwise builds the fresh session.  `maxQuestionsPerTopic || 5`
replaces a falsy (0) bound by 5; `enableFinalSummary || false` is the
identity on booleans. -/
def initializeSession (topics : List Topic) (apiKey : String)
    (maxQuestionsPerTopic : Nat) (enableFinalSummary : Bool) :
    Except String Session :=
  if topics.isEmpty then
    Except.error "Topics array must be non-empty"
  else
    match topics.findSome? topicValidationError with
    | some msg => Except.error msg
    | none =>
        Except.ok
          { apiKey := apiKey
            topics := topics
            topicStates := topics.map fun _ =>
              { status := TopicStatus.not_started, qaList := [], verdict := none }
            currentTopicIndex := 0
            enableFinalSummary := enableFinalSummary
            maxQuestionsPerTopic := jsOrNat maxQuestionsPerTopic 5
            prefetchedQuestions := []
            backgroundVerdictPromises := [] }

/-- `addQaToCurrentTopic(question, answer)`: appends to the current topic
state and forces status to probing; a missing session/topic state makes it a
no-op. -/
def addQaToCurrentTopic (question answer : String) (s : Session) : Session :=
  match getCurrentTopicState s with
  | none => s
  | some ts =>
      let ts2 : TopicState :=
        { ts with qaList := ts.qaList ++ [{ question := question, answer := answer }],
                  status := TopicStatus.probing }
      { s with topicStates := s.topicStates.set s.currentTopicIndex ts2 }

/-- `setCurrentTopicVerdict(verdict)`: stores the verdict on the current
topic state and forces status to done; the call sites pass
`topicAgentOutput.verdict`, which is nullable in the JSON, hence the
`Option Verdict` parameter. -/
def setCurrentTopicVerdict (v : Option Verdict) (s : Session) : Session :=
  match getCurrentTopicState s with
  | none => s
  | some ts =>
      let ts2 : TopicState := { ts with verdict := v, status := TopicStatus.done }
      { s with topicStates := s.topicStates.set s.currentTopicIndex ts2 }

/-- `moveToNextTopic()`: increments the cursor when not at the last topic and
reports whether it advanced. -/
def moveToNextTopic (s : Session) : Session × Bool :=
  if s.currentTopicIndex < s.topics.length - 1 then
    ({ s with currentTopicIndex := s.currentTopicIndex + 1 }, true)
  else
    (s, false)

/-- `hasMoreTopics()`. -/
def hasMoreTopics (s : Session) : Bool :=
  decide (s.currentTopicIndex < s.topics.length - 1)

/-- `shouldContinueCurrentTopic()`: continue while below the question bound
and no verdict has been recorded. -/
def shouldContinueCurrentTopic (s : Session) : Bool :=
  match getCurrentTopicState s with
  | none => false
  | some ts =>
      decide (ts.qaList.length < s.maxQuestionsPerTopic ∧
              ts.status ≠ TopicStatus.done)

/-! ## Input and agent-response validators -/

/-- `validateAnswer(answer)` from the input validator: rejects an
empty/whitespace answer and answers longer than 5000 characters. -/
def validateAnswer (answer : String) : Bool :=
  if answer = "" ∨ jsTrim answer = "" then false
  else if answer.length > 5000 then false
  else true

/-- The schema walk `validateResponse` of the agent validator, whose outcome
is carried on the modelled value (see `TopicAgentOutput.schemaOk`). -/
def validateResponseOk (o : TopicAgentOutput) : Bool :=
  o.schemaOk

/-- `validateTopicAgentAsk(output)`: null response, schema failure, a status
other than "ask", a null question or an empty question text are rejected. -/
def validateTopicAgentAsk (o : Option TopicAgentOutput) : Bool :=
  match o with
  | none => false
  | some out =>
      validateResponseOk out &&
        (decide (out.status = "ask") &&
          match out.question with
          | some q => decide (q.text ≠ "")
          | none => false)

/-- `validateTopicAgentFinal(output)`: null response, schema failure, a
status other than "final" or a null verdict are rejected. -/
def validateTopicAgentFinal (o : Option TopicAgentOutput) : Bool :=
  match o with
  | none => false
  | some out =>
      validateResponseOk out &&
        (decide (out.status = "final") && out.verdict.isSome)

/-- `validateTopicAgentResponse(output)`: accepts either a well-formed ask or
a well-formed final response. -/
def validateTopicAgentResponse (o : Option TopicAgentOutput) : Bool :=
  match o with
  | none => false
  | some out =>
      validateResponseOk out &&
        (if out.status = "ask" then
          match out.question with
          | some q => decide (q.text ≠ "")
          | none => false
        else if out.status = "final" then out.verdict.isSome
        else false)

/-- The inline question-shape check repeated in `handleAnswerSubmit`
(`!out || out.status !== AGENT_STATUS.ASK || !out.question ||
!out.question.text`) for a non-null output. -/
def askShapeOk (o : TopicAgentOutput) : Bool :=
  decide (o.status = "ask") &&
    match o.question with
    | some q => decide (q.text ≠ "")
    | none => false

/-! ## Prefetch manager (prefetch part of the agents API file) -/

/-- `getPrefetchedQuestion(topicIndex)`: bounds-checked lookup in the
prefetch map. -/
def getPrefetchedQuestion (topicIndex : Nat) (s : Session) : Option PrefetchEntry :=
  if topicIndex < s.topics.length then
    s.prefetchedQuestions.lookup topicIndex
  else none

/-- `setPrefetchedQuestion(topicIndex, questionData)`: bounds-checked
overwrite of the slot for `topicIndex`. -/
def setPrefetchedQuestion (topicIndex : Nat) (e : PrefetchEntry) (s : Session) : Session :=
  if topicIndex < s.topics.length then
    { s with prefetchedQuestions :=
        (topicIndex, e) :: s.prefetchedQuestions.filter fun p => p.1 != topicIndex }
  else s

/-- `clearPrefetchedQuestion(topicIndex)`: deletes the slot when present. -/
def clearPrefetchedQuestion (topicIndex : Nat) (s : Session) : Session :=
  if (s.prefetchedQuestions.lookup topicIndex).isSome then
    { s with prefetchedQuestions :=
        s.prefetchedQuestions.filter fun p => p.1 != topicIndex }
  else s

/-- `addBackgroundVerdictPromise(promise)`. -/
def addBackgroundVerdictPromise (t : BgVerdictTask) (s : Session) : Session :=
  { s with backgroundVerdictPromises := s.backgroundVerdictPromises ++ [t] }

/-- `prefetchNextTopicQuestion()`: best-effort speculative fetch of the next
topic opening question.  `callOutcome` abstracts the awaited
`callTopicAgent` result; the try/catch swallows a rejection (`Except.error`),
whose only effect in the source is a console warning. -/
def prefetchNextTopicQuestion (s : Session)
    (callOutcome : Except String (Option TopicAgentOutput)) : Session :=
  let nextTopicIndex := s.currentTopicIndex + 1
  if nextTopicIndex ≥ s.topics.length then s
  else if (getPrefetchedQuestion nextTopicIndex s).isSome then s
  else if (match s.topicStates[nextTopicIndex]? with
           | some ts => decide (ts.qaList.length > 0)
           | none => false) then s
  else
    match s.topics[nextTopicIndex]? with
    | none => s
    | some _nextTopic =>
        match callOutcome with
        | Except.error _ => s
        | Except.ok out =>
            if validateTopicAgentAsk out then
              match out with
              | some o =>
                  match o.question with
                  | some q =>
                      setPrefetchedQuestion nextTopicIndex
                        { text := q.text, topicIndex := nextTopicIndex,
                          topicAgentOutput := o } s
                  | none => s
              | none => s
            else s

/-! ## Session cache (session-cache.js) -/

/-- The `sessionData` object built by `saveSessionToCache`: every Session
field except `apiKey` and `backgroundVerdictPromises`. -/
structure SessionSnapshot where
  topics : List Topic
  topicStates : List TopicState
  currentTopicIndex : Nat
  enableFinalSummary : Bool
  maxQuestionsPerTopic : Nat
  prefetchedQuestions : List (Nat × PrefetchEntry)
deriving DecidableEq, Repr

/-- The `cacheData` object serialized under the cache key.  The JSON
serialization is a function of this structured value, so equal `CacheData`
values are written as identical byte strings. -/
structure CacheData where
  version : String
  timestamp : Nat
  sessionData : SessionSnapshot
  currentQuestion : Option CurrentQuestion
  currentScreen : String
deriving DecidableEq, Repr

def CACHE_VERSION : String := "2.0"

/-- The result object of `loadSessionFromCache`. -/
structure RestoredSession where
  session : Session
  currentQuestion : Option CurrentQuestion
  currentScreen : String
deriving DecidableEq, Repr

/-- `saveSessionToCache(currentQuestion, currentScreen)`: returns the value
written to localStorage under the cache key.  `now` models `Date.now()`;
the session is the global read by the function. -/
def saveSessionToCache (currentQuestion : Option CurrentQuestion)
    (currentScreen : String) (now : Nat) (s : Session) : CacheData :=
  { version := CACHE_VERSION
    timestamp := now
    sessionData :=
      { topics := s.topics
        topicStates := s.topicStates
        currentTopicIndex := s.currentTopicIndex
        enableFinalSummary := s.enableFinalSummary
        maxQuestionsPerTopic := s.maxQuestionsPerTopic
        prefetchedQuestions := s.prefetchedQuestions }
    currentQuestion := currentQuestion
    currentScreen := jsOrStr currentScreen "interview" }

/-- `loadSessionFromCache()`: `cached` is the value stored under the cache
key (`none` when the key is absent or unparseable) and `storedApiKey` models
the separately stored `openai_api_key` localStorage entry.  The structural
checks of the source (`version` truthy, `session` present, `topics` an
array, `topicStates` an object, `currentTopicIndex` a number) reduce in this
typed model to the version check; the falsy-coalescing defaults are kept
literally.  `backgroundVerdictPromises` is always reborn empty. -/
def loadSessionFromCache (cached : Option CacheData) (storedApiKey : Option String) :
    Option RestoredSession :=
  match cached with
  | none => none
  | some cacheData =>
      if cacheData.version = "" then none
      else
        let sessionData := cacheData.sessionData
        let restored : Session :=
          { apiKey := storedApiKey.getD ""
            topics := sessionData.topics
            topicStates := sessionData.topicStates
            currentTopicIndex := jsOrNat sessionData.currentTopicIndex 0
            enableFinalSummary := sessionData.enableFinalSummary
            maxQuestionsPerTopic := jsOrNat sessionData.maxQuestionsPerTopic 5
            prefetchedQuestions := sessionData.prefetchedQuestions
            backgroundVerdictPromises := [] }
        some
          { session := restored
            currentQuestion := cacheData.currentQuestion
            currentScreen := jsOrStr cacheData.currentScreen "interview" }

/-! ## Background verdict completion (handleAnswerSubmit, prefetched branch) -/

/-- The then/catch continuation of the background verdict promise launched by
`handleAnswerSubmit` when a prefetched question was consumed: on a settled
`callTopicAgent` result it validates the final response and, when valid and
the captured index has a topic state, writes the verdict and done status at
that captured index; a rejection is swallowed by the catch handler whose
only effect is a console error.  `s` is the global session as it stands when
the promise settles. -/
def applyBackgroundVerdict (capturedIndex : Nat)
    (outcome : Except String (Option TopicAgentOutput)) (s : Session) : Session :=
  match outcome with
  | Except.error _ => s
  | Except.ok none => s
  | Except.ok (some out) =>
      if validateTopicAgentFinal (some out) then
        match s.topicStates[capturedIndex]? with
        | some ts =>
            let ts2 : TopicState :=
              { ts with verdict := out.verdict, status := TopicStatus.done }
            { s with topicStates := s.topicStates.set capturedIndex ts2 }
        | none => s
      else s

/-! ## Interview orchestrator: handleAnswerSubmit (interview-flow.js) -/

/-- The mutable state `handleAnswerSubmit` touches besides the DOM: the
global session, the ui-state current question and the busy flag
(`isProcessing` in the ui-state module). -/
structure AppState where
  session : Option Session
  currentQuestion : Option CurrentQuestion
  isProcessing : Bool
deriving DecidableEq, Repr

/-- How one invocation of `handleAnswerSubmit` finishes.  `concurrencyRejected`
is the fast-fail return behind the busy-flag guard; `errorAborted` is the
catch handler surfacing the thrown error via `handleError`;
`interviewEnded` marks the paths that invoke `endInterview()`. -/
inductive SubmitOutcome where
  | concurrencyRejected
  | invalidAnswer
  | noSession
  | errorAborted (msg : String)
  | questionShown
  | interviewEnded
deriving DecidableEq, Repr

abbrev SubmitResult := AppState × SubmitOutcome × List BgVerdictTask

/-- Assembles the state after the finally clause (`setProcessing(false)`). -/
def submitDone (s : Session) (cq : Option CurrentQuestion)
    (outcome : SubmitOutcome) (tasks : List BgVerdictTask) : SubmitResult :=
  ({ session := some s, currentQuestion := cq, isProcessing := false }, outcome, tasks)

/-- `handleAnswerSubmit()`.  `rawAnswer` is the answer input value; the three
oracle parameters abstract the settled results of the `callTopicAgent`
invocations the routine may await: `contOutcome` for the continue-topic call,
`verdictOutcome` for the foreground closing-verdict call (parallel branch and
last-topic branch), `nextQOutcome` for the next-opening-question call
(parallel branch and early-final fallback).  The background verdict call of
the prefetched branch is not awaited: it is returned as a launched
`BgVerdictTask` whose completion is `applyBackgroundVerdict`.  The
fire-and-forget `prefetchNextTopicQuestion()` triggers are asynchronous and
modelled by the separate `prefetchNextTopicQuestion` step. -/
def handleAnswerSubmit (st : AppState) (rawAnswer : String)
    (contOutcome verdictOutcome nextQOutcome : Except String (Option TopicAgentOutput)) :
    SubmitResult :=
  if st.isProcessing then (st, SubmitOutcome.concurrencyRejected, [])
  else
    let answer := jsTrim rawAnswer
    if ¬ validateAnswer answer then (st, SubmitOutcome.invalidAnswer, [])
    else
      match st.session, st.currentQuestion with
      | some s0, some currentQuestion =>
          match getCurrentTopic s0, getCurrentTopicState s0 with
          | some _currentTopic, some _topicState =>
              let s1 := addQaToCurrentTopic currentQuestion.text answer s0
              if ¬ shouldContinueCurrentTopic s1 then
                if hasMoreTopics s1 then
                  let nextTopicIndex := s1.currentTopicIndex + 1
                  match getPrefetchedQuestion nextTopicIndex s1 with
                  | some prefetched =>
                      let nextOut := prefetched.topicAgentOutput
                      if askShapeOk nextOut then
                        let capturedIndex := s1.currentTopicIndex
                        let s2 := clearPrefetchedQuestion nextTopicIndex s1
                        let s3 := (moveToNextTopic s2).1
                        let newQ : CurrentQuestion :=
                          { text := (nextOut.question.map Question.text).getD "",
                            topicIndex := s3.currentTopicIndex }
                        let task : BgVerdictTask := { capturedIndex := capturedIndex }
                        let s4 := addBackgroundVerdictPromise task s3
                        submitDone s4 (some newQ) SubmitOutcome.questionShown [task]
                      else
                        submitDone s1 (some currentQuestion)
                          (SubmitOutcome.errorAborted "Prefetched question is invalid") []
                  | none =>
                      match verdictOutcome, nextQOutcome with
                      | Except.error e, _ =>
                          submitDone s1 (some currentQuestion) (SubmitOutcome.errorAborted e) []
                      | Except.ok _, Except.error e =>
                          submitDone s1 (some currentQuestion) (SubmitOutcome.errorAborted e) []
                      | Except.ok vOut, Except.ok nOut =>
                          match vOut with
                          | none =>
                              submitDone s1 (some currentQuestion)
                                (SubmitOutcome.errorAborted "TopicAgent did not provide final verdict") []
                          | some vo =>
                              if validateTopicAgentFinal (some vo) then
                                let s2 := setCurrentTopicVerdict vo.verdict s1
                                match nOut with
                                | none =>
                                    submitDone s2 (some currentQuestion)
                                      (SubmitOutcome.errorAborted "TopicAgent did not return a question") []
                                | some no =>
                                    if validateTopicAgentAsk (some no) then
                                      let s3 := (moveToNextTopic s2).1
                                      let newQ : CurrentQuestion :=
                                        { text := (no.question.map Question.text).getD "",
                                          topicIndex := s3.currentTopicIndex }
                                      submitDone s3 (some newQ) SubmitOutcome.questionShown []
                                    else
                                      submitDone s2 (some currentQuestion)
                                        (SubmitOutcome.errorAborted "TopicAgent did not return a question") []
                              else
                                submitDone s1 (some currentQuestion)
                                  (SubmitOutcome.errorAborted "TopicAgent did not provide final verdict") []
                else
                  match verdictOutcome with
                  | Except.error e =>
                      submitDone s1 (some currentQuestion) (SubmitOutcome.errorAborted e) []
                  | Except.ok vOut =>
                      match vOut with
                      | none =>
                          submitDone s1 (some currentQuestion)
                            (SubmitOutcome.errorAborted "TopicAgent did not provide final verdict") []
                      | some vo =>
                          if validateTopicAgentFinal (some vo) then
                            let s2 := setCurrentTopicVerdict vo.verdict s1
                            submitDone s2 (some currentQuestion) SubmitOutcome.interviewEnded []
                          else
                            submitDone s1 (some currentQuestion)
                              (SubmitOutcome.errorAborted "TopicAgent did not provide final verdict") []
              else
                match contOutcome with
                | Except.error e =>
                    submitDone s1 (some currentQuestion) (SubmitOutcome.errorAborted e) []
                | Except.ok cOut =>
                    match cOut with
                    | none =>
                        submitDone s1 (some currentQuestion)
                          (SubmitOutcome.errorAborted "TopicAgent returned empty response") []
                    | some co =>
                        if validateTopicAgentResponse (some co) then
                          if decide (co.status = "final") && co.verdict.isSome then
                            let s2 := setCurrentTopicVerdict co.verdict s1
                            if hasMoreTopics s2 then
                              let nextTopicIndex := s2.currentTopicIndex + 1
                              match getPrefetchedQuestion nextTopicIndex s2 with
                              | some prefetched =>
                                  let nOut := prefetched.topicAgentOutput
                                  let s3 := clearPrefetchedQuestion nextTopicIndex s2
                                  if askShapeOk nOut then
                                    let s4 := (moveToNextTopic s3).1
                                    let newQ : CurrentQuestion :=
                                      { text := (nOut.question.map Question.text).getD "",
                                        topicIndex := s4.currentTopicIndex }
                                    submitDone s4 (some newQ) SubmitOutcome.questionShown []
                                  else
                                    submitDone s3 (some currentQuestion)
                                      (SubmitOutcome.errorAborted "TopicAgent did not return a question") []
                              | none =>
                                  match nextQOutcome with
                                  | Except.error e =>
                                      submitDone s2 (some currentQuestion) (SubmitOutcome.errorAborted e) []
                                  | Except.ok nq =>
                                      match nq with
                                      | none =>
                                          submitDone s2 (some currentQuestion)
                                            (SubmitOutcome.errorAborted "TopicAgent did not return a question") []
                                      | some no =>
                                          if askShapeOk no then
                                            let s4 := (moveToNextTopic s2).1
                                            let newQ : CurrentQuestion :=
                                              { text := (no.question.map Question.text).getD "",
                                                topicIndex := s4.currentTopicIndex }
                                            submitDone s4 (some newQ) SubmitOutcome.questionShown []
                                          else
                                            submitDone s2 (some currentQuestion)
                                              (SubmitOutcome.errorAborted "TopicAgent did not return a question") []
                            else
                              submitDone s2 (some currentQuestion) SubmitOutcome.interviewEnded []
                          else if askShapeOk co then
                            let newQ : CurrentQuestion :=
                              { text := (co.question.map Question.text).getD "",
                                topicIndex := s1.currentTopicIndex }
                            submitDone s1 (some newQ) SubmitOutcome.questionShown []
                          else
                            submitDone s1 (some currentQuestion)
                              (SubmitOutcome.errorAborted "TopicAgent returned invalid response") []
                        else
                          submitDone s1 (some currentQuestion)
                            (SubmitOutcome.errorAborted "TopicAgent validation failed") []
          | _, _ =>
              submitDone s0 (some currentQuestion)
                (SubmitOutcome.errorAborted "Current topic not found") []
      | _, _ => (st, SubmitOutcome.noSession, [])

/-! ## Concrete values used by witnesses and counterexamples -/

def tTopicA : Topic :=
  { name := "Networking", importance := 3, required_level := "basic", merged_from := [] }

def tTopicB : Topic :=
  { name := "Databases", importance := 4, required_level := "solid", merged_from := [] }

def tVerdictA : Verdict :=
  { name := "Networking", assessed_level := "basic", score := 4, confidence := 1,
    strengths := ["routing"], gaps := [] }

def tAskOutB : TopicAgentOutput :=
  { schemaOk := true, status := "ask",
    question := some { text := "What is a join" }, verdict := none }

def tFinalOutA : TopicAgentOutput :=
  { schemaOk := true, status := "final", question := none, verdict := some tVerdictA }

/-- A session on topic 0 of 2, one answer below the question bound, with a
prefetched question cached for topic 1. -/
def tSessionPre : Session :=
  { apiKey := "sk-test"
    topics := [tTopicA, tTopicB]
    topicStates :=
      [{ status := TopicStatus.probing,
         qaList := [{ question := "Q1", answer := "a1" }], verdict := none },
       { status := TopicStatus.not_started, qaList := [], verdict := none }]
    currentTopicIndex := 0
    enableFinalSummary := false
    maxQuestionsPerTopic := 2
    prefetchedQuestions :=
      [(1, { text := "What is a join", topicIndex := 1, topicAgentOutput := tAskOutB })]
    backgroundVerdictPromises := [] }

def tAppPre : AppState :=
  { session := some tSessionPre,
    currentQuestion := some { text := "Q2", topicIndex := 0 },
    isProcessing := false }

/-! ## Frame lemmas for the session operations -/

@[simp] theorem submitDone_session (s : Session) (cq : Option CurrentQuestion)
    (o : SubmitOutcome) (t : List BgVerdictTask) :
    (submitDone s cq o t).1.session = some s := rfl

@[simp] theorem submitDone_currentQuestion (s : Session) (cq : Option CurrentQuestion)
    (o : SubmitOutcome) (t : List BgVerdictTask) :
    (submitDone s cq o t).1.currentQuestion = cq := rfl

@[simp] theorem submitDone_outcome (s : Session) (cq : Option CurrentQuestion)
    (o : SubmitOutcome) (t : List BgVerdictTask) :
    (submitDone s cq o t).2.1 = o := rfl

@[simp] theorem submitDone_tasks (s : Session) (cq : Option CurrentQuestion)
    (o : SubmitOutcome) (t : List BgVerdictTask) :
    (submitDone s cq o t).2.2 = t := rfl

@[simp] theorem addQa_currentTopicIndex (q a : String) (s : Session) :
    (addQaToCurrentTopic q a s).currentTopicIndex = s.currentTopicIndex := by
  unfold addQaToCurrentTopic
  cases h : getCurrentTopicState s <;> simp [h]

@[simp] theorem addQa_topics (q a : String) (s : Session) :
    (addQaToCurrentTopic q a s).topics = s.topics := by
  unfold addQaToCurrentTopic
  cases h : getCurrentTopicState s <;> simp [h]

@[simp] theorem addQa_maxQuestionsPerTopic (q a : String) (s : Session) :
    (addQaToCurrentTopic q a s).maxQuestionsPerTopic = s.maxQuestionsPerTopic := by
  unfold addQaToCurrentTopic
  cases h : getCurrentTopicState s <;> simp [h]

@[simp] theorem addQa_prefetchedQuestions (q a : String) (s : Session) :
    (addQaToCurrentTopic q a s).prefetchedQuestions = s.prefetchedQuestions := by
  unfold addQaToCurrentTopic
  cases h : getCurrentTopicState s <;> simp [h]

@[simp] theorem addQa_backgroundVerdictPromises (q a : String) (s : Session) :
    (addQaToCurrentTopic q a s).backgroundVerdictPromises = s.backgroundVerdictPromises := by
  unfold addQaToCurrentTopic
  cases h : getCurrentTopicState s <;> simp [h]

theorem addQa_topicStates_ne (q a : String) (s : Session) (j : Nat)
    (hj : j ≠ s.currentTopicIndex) :
    (addQaToCurrentTopic q a s).topicStates[j]? = s.topicStates[j]? := by
  unfold addQaToCurrentTopic
  cases h : getCurrentTopicState s with
  | none => rfl
  | some ts => exact List.getElem?_set_ne (Ne.symm hj)

@[simp] theorem setVerdict_currentTopicIndex (v : Option Verdict) (s : Session) :
    (setCurrentTopicVerdict v s).currentTopicIndex = s.currentTopicIndex := by
  unfold setCurrentTopicVerdict
  cases h : getCurrentTopicState s <;> simp [h]

@[simp] theorem setVerdict_topics (v : Option Verdict) (s : Session) :
    (setCurrentTopicVerdict v s).topics = s.topics := by
  unfold setCurrentTopicVerdict
  cases h : getCurrentTopicState s <;> simp [h]

@[simp] theorem setVerdict_maxQuestionsPerTopic (v : Option Verdict) (s : Session) :
    (setCurrentTopicVerdict v s).maxQuestionsPerTopic = s.maxQuestionsPerTopic := by
  unfold setCurrentTopicVerdict
  cases h : getCurrentTopicState s <;> simp [h]

@[simp] theorem setVerdict_prefetchedQuestions (v : Option Verdict) (s : Session) :
    (setCurrentTopicVerdict v s).prefetchedQuestions = s.prefetchedQuestions := by
  unfold setCurrentTopicVerdict
  cases h : getCurrentTopicState s <;> simp [h]

@[simp] theorem setVerdict_backgroundVerdictPromises (v : Option Verdict) (s : Session) :
    (setCurrentTopicVerdict v s).backgroundVerdictPromises = s.backgroundVerdictPromises := by
  unfold setCurrentTopicVerdict
  cases h : getCurrentTopicState s <;> simp [h]

theorem setVerdict_topicStates_ne (v : Option Verdict) (s : Session) (j : Nat)
    (hj : j ≠ s.currentTopicIndex) :
    (setCurrentTopicVerdict v s).topicStates[j]? = s.topicStates[j]? := by
  unfold setCurrentTopicVerdict
  cases h : getCurrentTopicState s with
  | none => rfl
  | some ts => exact List.getElem?_set_ne (Ne.symm hj)

@[simp] theorem clearPrefetched_currentTopicIndex (k : Nat) (s : Session) :
    (clearPrefetchedQuestion k s).currentTopicIndex = s.currentTopicIndex := by
  unfold clearPrefetchedQuestion
  split <;> rfl

@[simp] theorem clearPrefetched_topics (k : Nat) (s : Session) :
    (clearPrefetchedQuestion k s).topics = s.topics := by
  unfold clearPrefetchedQuestion
  split <;> rfl

@[simp] theorem clearPrefetched_topicStates (k : Nat) (s : Session) :
    (clearPrefetchedQuestion k s).topicStates = s.topicStates := by
  unfold clearPrefetchedQuestion
  split <;> rfl

@[simp] theorem clearPrefetched_maxQuestionsPerTopic (k : Nat) (s : Session) :
    (clearPrefetchedQuestion k s).maxQuestionsPerTopic = s.maxQuestionsPerTopic := by
  unfold clearPrefetchedQuestion
  split <;> rfl

@[simp] theorem clearPrefetched_backgroundVerdictPromises (k : Nat) (s : Session) :
    (clearPrefetchedQuestion k s).backgroundVerdictPromises = s.backgroundVerdictPromises := by
  unfold clearPrefetchedQuestion
  split <;> rfl

theorem lookup_filter_ne_key (l : List (Nat × PrefetchEntry)) (k : Nat) :
    (l.filter fun p => p.1 != k).lookup k = none := by
  induction l with
  | nil => rfl
  | cons hd tl ih =>
      by_cases h : hd.1 = k
      · simp [List.filter, h, ih]
      · simp only [List.filter]
        rw [show (hd.1 != k) = true by simpa using h]
        simp only [List.lookup]
        rw [show (k == hd.1) = false by simp [Ne.symm h]]
        exact ih

theorem clearPrefetched_lookup_self (k : Nat) (s : Session) :
    (clearPrefetchedQuestion k s).prefetchedQuestions.lookup k = none := by
  unfold clearPrefetchedQuestion
  split
  · exact lookup_filter_ne_key _ k
  · next h =>
      cases hl : List.lookup k s.prefetchedQuestions with
      | none => rfl
      | some e => exact absurd (by simp [hl]) h

theorem clearPrefetched_getPrefetched_self (k : Nat) (s : Session) :
    getPrefetchedQuestion k (clearPrefetchedQuestion k s) = none := by
  unfold getPrefetchedQuestion
  split
  · exact clearPrefetched_lookup_self k s
  · rfl

@[simp] theorem addBg_currentTopicIndex (t : BgVerdictTask) (s : Session) :
    (addBackgroundVerdictPromise t s).currentTopicIndex = s.currentTopicIndex := rfl

@[simp] theorem addBg_topics (t : BgVerdictTask) (s : Session) :
    (addBackgroundVerdictPromise t s).topics = s.topics := rfl

@[simp] theorem addBg_topicStates (t : BgVerdictTask) (s : Session) :
    (addBackgroundVerdictPromise t s).topicStates = s.topicStates := rfl

@[simp] theorem addBg_prefetchedQuestions (t : BgVerdictTask) (s : Session) :
    (addBackgroundVerdictPromise t s).prefetchedQuestions = s.prefetchedQuestions := rfl

@[simp] theorem moveToNextTopic_topics (s : Session) :
    (moveToNextTopic s).1.topics = s.topics := by
  unfold moveToNextTopic
  split <;> rfl

@[simp] theorem moveToNextTopic_topicStates (s : Session) :
    (moveToNextTopic s).1.topicStates = s.topicStates := by
  unfold moveToNextTopic
  split <;> rfl

@[simp] theorem moveToNextTopic_prefetchedQuestions (s : Session) :
    (moveToNextTopic s).1.prefetchedQuestions = s.prefetchedQuestions := by
  unfold moveToNextTopic
  split <;> rfl

@[simp] theorem moveToNextTopic_backgroundVerdictPromises (s : Session) :
    (moveToNextTopic s).1.backgroundVerdictPromises = s.backgroundVerdictPromises := by
  unfold moveToNextTopic
  split <;> rfl

theorem moveToNextTopic_cursor_cases (s : Session) :
    (moveToNextTopic s).1.currentTopicIndex = s.currentTopicIndex ∨
    ((moveToNextTopic s).1.currentTopicIndex = s.currentTopicIndex + 1 ∧
      (moveToNextTopic s).1.currentTopicIndex < s.topics.length) := by
  unfold moveToNextTopic
  split
  · next h =>
      refine Or.inr ⟨rfl, ?_⟩
      show s.currentTopicIndex + 1 < s.topics.length
      omega
  · exact Or.inl rfl

theorem moveToNextTopic_advances (s : Session) (h : hasMoreTopics s = true) :
    (moveToNextTopic s).1.currentTopicIndex = s.currentTopicIndex + 1 := by
  unfold moveToNextTopic
  rw [if_pos (by simpa [hasMoreTopics] using h)]

/-- Advancing from a state whose cursor and topics agree with those of `s`
keeps the cursor at least at, and either equal to, the cursor of `s` or
strictly inside the topic list of `s`. -/
theorem cursor_after_move_chain (x s : Session)
    (hc : x.currentTopicIndex = s.currentTopicIndex)
    (ht : x.topics = s.topics) :
    s.currentTopicIndex ≤ (moveToNextTopic x).1.currentTopicIndex ∧
      ((moveToNextTopic x).1.currentTopicIndex = s.currentTopicIndex ∨
        (moveToNextTopic x).1.currentTopicIndex < s.topics.length) := by
  rcases moveToNextTopic_cursor_cases x with h | ⟨h1, h2⟩
  · rw [h, hc]
    exact ⟨le_refl _, Or.inl rfl⟩
  · rw [ht] at h2
    rw [h1, hc] at *
    exact ⟨by omega, Or.inr h2⟩

@[simp] theorem setPrefetched_currentTopicIndex (k : Nat) (e : PrefetchEntry) (s : Session) :
    (setPrefetchedQuestion k e s).currentTopicIndex = s.currentTopicIndex := by
  unfold setPrefetchedQuestion
  split <;> rfl

@[simp] theorem setPrefetched_topics (k : Nat) (e : PrefetchEntry) (s : Session) :
    (setPrefetchedQuestion k e s).topics = s.topics := by
  unfold setPrefetchedQuestion
  split <;> rfl

@[simp] theorem setPrefetched_topicStates (k : Nat) (e : PrefetchEntry) (s : Session) :
    (setPrefetchedQuestion k e s).topicStates = s.topicStates := by
  unfold setPrefetchedQuestion
  split <;> rfl

@[simp] theorem setPrefetched_apiKey (k : Nat) (e : PrefetchEntry) (s : Session) :
    (setPrefetchedQuestion k e s).apiKey = s.apiKey := by
  unfold setPrefetchedQuestion
  split <;> rfl

@[simp] theorem setPrefetched_maxQuestionsPerTopic (k : Nat) (e : PrefetchEntry) (s : Session) :
    (setPrefetchedQuestion k e s).maxQuestionsPerTopic = s.maxQuestionsPerTopic := by
  unfold setPrefetchedQuestion
  split <;> rfl

@[simp] theorem setPrefetched_enableFinalSummary (k : Nat) (e : PrefetchEntry) (s : Session) :
    (setPrefetchedQuestion k e s).enableFinalSummary = s.enableFinalSummary := by
  unfold setPrefetchedQuestion
  split <;> rfl

@[simp] theorem setPrefetched_backgroundVerdictPromises (k : Nat) (e : PrefetchEntry) (s : Session) :
    (setPrefetchedQuestion k e s).backgroundVerdictPromises = s.backgroundVerdictPromises := by
  unfold setPrefetchedQuestion
  split <;> rfl

theorem jsOrNat_zero_right (n : Nat) : jsOrNat n 0 = n := by
  unfold jsOrNat
  split <;> omega

/-- Characterization of the per-topic validation of `initializeSession`. -/
theorem topicValidationError_eq_none (t : Topic) :
    topicValidationError t = none ↔
      (t.name ≠ "" ∧ 1 ≤ t.importance ∧ t.importance ≤ 5 ∧
        (t.required_level = "basic" ∨ t.required_level = "solid" ∨
          t.required_level = "deep")) := by
  unfold topicValidationError
  split_ifs <;> simp_all

/-- Across one `handleAnswerSubmit` invocation the session cursor never
decreases, and when it moves it stays below the topic count. -/
theorem submit_session_cursor (st : AppState) (a : String)
    (o₁ o₂ o₃ : Except String (Option TopicAgentOutput)) (s s2 : Session)
    (hs : st.session = some s)
    (h2 : (handleAnswerSubmit st a o₁ o₂ o₃).1.session = some s2) :
    s.currentTopicIndex ≤ s2.currentTopicIndex ∧
      (s2.currentTopicIndex = s.currentTopicIndex ∨
        s2.currentTopicIndex < s.topics.length) := by
  obtain ⟨sessOpt, cqOpt, proc⟩ := st
  replace hs : sessOpt = some s := hs
  subst hs
  simp only [handleAnswerSubmit] at h2
  repeat' split at h2
  all_goals simp only [submitDone_session, Option.some.injEq] at h2
  all_goals subst h2
  all_goals solve
    | exact ⟨le_refl _, Or.inl rfl⟩
    | (refine ⟨?_, Or.inl ?_⟩ <;> simp_all)
    | (simp only [addBg_currentTopicIndex]
       exact cursor_after_move_chain _ s (by simp_all) (by simp_all))
    | exact cursor_after_move_chain _ s (by simp_all) (by simp_all)

/-! ## Further concrete values for witnesses and counterexamples -/

/-- A session standing on the last topic. -/
def tSessionLast : Session :=
  { tSessionPre with currentTopicIndex := 1, prefetchedQuestions := [] }

/-- The session produced by a concrete successful initialization. -/
def tInitSession : Session :=
  (initializeSession [tTopicA, tTopicB] "sk-test" 5 false).toOption.getD tSessionPre

/-- The session after a concrete `handleAnswerSubmit` run through the
prefetched branch. -/
def tSubmitSession : Session :=
  ((handleAnswerSubmit tAppPre "my answer" (Except.ok none) (Except.ok none)
    (Except.ok none)).1.session).getD tSessionPre

/-- A topic state that exceeded the question bound of 5 by one. -/
def cex5State : TopicState :=
  { status := TopicStatus.probing,
    qaList := List.replicate 6 { question := "q", answer := "a" },
    verdict := none }

/-- A session whose current topic state is `cex5State`. -/
def cex5Session : Session :=
  { apiKey := "sk-test", topics := [tTopicA], topicStates := [cex5State],
    currentTopicIndex := 0, enableFinalSummary := false,
    maxQuestionsPerTopic := 5, prefetchedQuestions := [],
    backgroundVerdictPromises := [] }

/-- A topic state with 4 recorded answers, below the bound of 5. -/
def wit5State : TopicState :=
  { status := TopicStatus.probing,
    qaList := List.replicate 4 { question := "q", answer := "a" },
    verdict := none }

/-- A session whose current topic state is `wit5State`. -/
def wit5Session : Session :=
  { apiKey := "sk-test", topics := [tTopicA], topicStates := [wit5State],
    currentTopicIndex := 0, enableFinalSummary := false,
    maxQuestionsPerTopic := 5, prefetchedQuestions := [],
    backgroundVerdictPromises := [] }

/-! ## Helper lemmas about the background verdict completion and aborts -/

/-- The background verdict completion never touches a topic state slot other
than the captured index. -/
theorem applyBg_topicStates_ne (k : Nat) (out : Except String (Option TopicAgentOutput))
    (s : Session) (j : Nat) (hj : j ≠ k) :
    (applyBackgroundVerdict k out s).topicStates[j]? = s.topicStates[j]? := by
  unfold applyBackgroundVerdict
  repeat' split
  all_goals first
    | rfl
    | exact List.getElem?_set_ne (Ne.symm hj)

/-- The background verdict completion never moves the cursor. -/
theorem applyBg_currentTopicIndex (k : Nat) (out : Except String (Option TopicAgentOutput))
    (s : Session) :
    (applyBackgroundVerdict k out s).currentTopicIndex = s.currentTopicIndex := by
  unfold applyBackgroundVerdict
  repeat' split
  all_goals rfl

/-- On a validated final response the background verdict completion stores
the verdict with done status at the captured index. -/
theorem applyBg_writes (k : Nat) (out : TopicAgentOutput) (s : Session) (ts : TopicState)
    (hv : validateTopicAgentFinal (some out) = true)
    (hget : s.topicStates[k]? = some ts) :
    (applyBackgroundVerdict k (Except.ok (some out)) s).topicStates[k]? =
      some { ts with verdict := out.verdict, status := TopicStatus.done } := by
  unfold applyBackgroundVerdict
  simp only [hv, if_true, hget]
  exact List.getElem?_set_eq_of_lt _ (List.getElem?_eq_some.mp hget).1

/-- The session states a submission can be in when it aborts with a
surfaced error: untouched, answer recorded, answer and verdict recorded, or
additionally with the next-topic prefetch slot consumed. -/
theorem abort_payload (s sh : Session) (q a : String)
    (h : sh = s ∨ sh = addQaToCurrentTopic q a s ∨
      ∃ v, sh = setCurrentTopicVerdict v (addQaToCurrentTopic q a s) ∨
        sh = clearPrefetchedQuestion (s.currentTopicIndex + 1)
               (setCurrentTopicVerdict v (addQaToCurrentTopic q a s))) :
    sh.currentTopicIndex = s.currentTopicIndex ∧
    sh.topics = s.topics ∧
    sh.backgroundVerdictPromises = s.backgroundVerdictPromises ∧
    (∀ j, j ≠ s.currentTopicIndex → sh.topicStates[j]? = s.topicStates[j]?) ∧
    (sh = s ∨ sh = addQaToCurrentTopic q a s ∨
      ∃ v, sh = setCurrentTopicVerdict v (addQaToCurrentTopic q a s) ∨
        sh = clearPrefetchedQuestion (s.currentTopicIndex + 1)
               (setCurrentTopicVerdict v (addQaToCurrentTopic q a s))) := by
  refine ⟨?_, ?_, ?_, ?_, h⟩
  · rcases h with rfl | rfl | ⟨v, rfl | rfl⟩ <;> simp
  · rcases h with rfl | rfl | ⟨v, rfl | rfl⟩ <;> simp
  · rcases h with rfl | rfl | ⟨v, rfl | rfl⟩ <;> simp
  · rcases h with rfl | rfl | ⟨v, rfl | rfl⟩
    · exact fun j hj => rfl
    · exact fun j hj => addQa_topicStates_ne _ _ _ _ hj
    · intro j hj
      have hj2 : j ≠ (addQaToCurrentTopic q a s).currentTopicIndex := by simpa using hj
      rw [setVerdict_topicStates_ne _ _ _ hj2, addQa_topicStates_ne _ _ _ _ hj]
    · intro j hj
      have hj2 : j ≠ (addQaToCurrentTopic q a s).currentTopicIndex := by simpa using hj
      rw [clearPrefetched_topicStates,
        setVerdict_topicStates_ne _ _ _ hj2, addQa_topicStates_ne _ _ _ _ hj]

/-- `hasMoreTopics` only reads the cursor and the topic list. -/
theorem hasMoreTopics_congr (x y : Session)
    (hc : x.currentTopicIndex = y.currentTopicIndex) (ht : x.topics = y.topics) :
    hasMoreTopics x = hasMoreTopics y := by
  unfold hasMoreTopics
  rw [hc, ht]

/-- `getPrefetchedQuestion` only reads the topic list and the prefetch map. -/
theorem getPrefetchedQuestion_congr (k : Nat) (x y : Session)
    (ht : x.topics = y.topics) (hp : x.prefetchedQuestions = y.prefetchedQuestions) :
    getPrefetchedQuestion k x = getPrefetchedQuestion k y := by
  unfold getPrefetchedQuestion
  rw [ht, hp]

/-! ## Claim theorems -/

/-- C4: a `handleAnswerSubmit` call entered while the busy flag is set fails
fast with the concurrency rejection and performs no state mutation and
launches no background task; the modelled routine is otherwise executed
atomically under the flag, so an interleaved second call leaves the first
run's state transition as the only one. -/
theorem submit_concurrency_guard (st : AppState) (a : String)
    (o₁ o₂ o₃ : Except String (Option TopicAgentOutput))
    (h : st.isProcessing = true) :
    handleAnswerSubmit st a o₁ o₂ o₃ = (st, SubmitOutcome.concurrencyRejected, []) := by
  simp [handleAnswerSubmit, h]

/-- C4 witness: the guard fires on a concrete busy state. -/
theorem submit_concurrency_guard_witness :
    handleAnswerSubmit { tAppPre with isProcessing := true } "my answer"
        (Except.ok none) (Except.ok none) (Except.ok none) =
      ({ tAppPre with isProcessing := true }, SubmitOutcome.concurrencyRejected, []) :=
  submit_concurrency_guard _ _ _ _ _ rfl

/-- C5 (amended): when the current topic state exists,
`shouldContinueCurrentTopic` is false exactly when the number of recorded
answers has reached or exceeded `maxQuestionsPerTopic` or the status is
done, and true otherwise (the source compares with strict less-than, so any
count at or above the bound stops the topic, not only an exactly-equal
count). -/
theorem shouldContinue_iff (s : Session) (ts : TopicState)
    (h : getCurrentTopicState s = some ts) :
    shouldContinueCurrentTopic s = false ↔
      (s.maxQuestionsPerTopic ≤ ts.qaList.length ∨ ts.status = TopicStatus.done) := by
  unfold shouldContinueCurrentTopic
  rw [h]
  simp only [decide_eq_false_iff_not, not_and_or, Nat.not_lt, not_not, ne_eq]

/-- C5 witness: 4 recorded answers with bound 5 and probing status continue
the topic. -/
theorem shouldContinue_iff_witness :
    shouldContinueCurrentTopic wit5Session = false ↔
      (wit5Session.maxQuestionsPerTopic ≤ wit5State.qaList.length ∨
        wit5State.status = TopicStatus.done) :=
  shouldContinue_iff wit5Session wit5State (by decide)

/-- C5 counterexample: with six recorded answers and bound five the code
stops the topic (returns false) although the count does not equal the bound
and the status is not done, refuting the claimed equivalence at this
state. -/
theorem shouldContinue_claim_cex :
    ¬ (shouldContinueCurrentTopic cex5Session = false ↔
        (cex5State.qaList.length = cex5Session.maxQuestionsPerTopic ∨
          cex5State.status = TopicStatus.done)) := by decide

/-- C6: saving a session and reloading the stored value yields a session
whose topics, topicStates and currentTopicIndex equal the originals exactly
and whose background verdict task list is empty. -/
theorem sessionCache_roundtrip (s : Session) (q : Option CurrentQuestion)
    (scr : String) (now : Nat) (key : Option String) :
    ∃ r, loadSessionFromCache (some (saveSessionToCache q scr now s)) key = some r ∧
      r.session.topics = s.topics ∧
      r.session.topicStates = s.topicStates ∧
      r.session.currentTopicIndex = s.currentTopicIndex ∧
      r.session.backgroundVerdictPromises = [] := by
  exact ⟨_, rfl, rfl, rfl, jsOrNat_zero_right _, rfl⟩

/-- C7: `moveToNextTopic` on the last topic returns false and leaves the
cursor unchanged; on an earlier topic it returns true and increments the
cursor by exactly one; across answer submission the cursor never decreases
and, when it moves, stays below the number of topics; background verdict
completion, prefetching, answer recording and verdict recording never touch
the cursor. -/
theorem advanceTopic_monotone_bounded :
    (∀ s : Session, 1 ≤ s.topics.length →
      s.currentTopicIndex = s.topics.length - 1 → moveToNextTopic s = (s, false)) ∧
    (∀ s : Session, s.currentTopicIndex < s.topics.length - 1 →
      (moveToNextTopic s).2 = true ∧
      (moveToNextTopic s).1.currentTopicIndex = s.currentTopicIndex + 1) ∧
    (∀ (st : AppState) (a : String)
        (o₁ o₂ o₃ : Except String (Option TopicAgentOutput)) (s s2 : Session),
      st.session = some s →
      (handleAnswerSubmit st a o₁ o₂ o₃).1.session = some s2 →
      (s.currentTopicIndex ≤ s2.currentTopicIndex ∧
        (s2.currentTopicIndex = s.currentTopicIndex ∨
          s2.currentTopicIndex < s.topics.length))) ∧
    (∀ (k : Nat) (out : Except String (Option TopicAgentOutput)) (s : Session),
      (applyBackgroundVerdict k out s).currentTopicIndex = s.currentTopicIndex) ∧
    (∀ (s : Session) (out : Except String (Option TopicAgentOutput)),
      (prefetchNextTopicQuestion s out).currentTopicIndex = s.currentTopicIndex) ∧
    (∀ (q a : String) (s : Session),
      (addQaToCurrentTopic q a s).currentTopicIndex = s.currentTopicIndex) ∧
    (∀ (v : Option Verdict) (s : Session),
      (setCurrentTopicVerdict v s).currentTopicIndex = s.currentTopicIndex) := by
  refine ⟨?_, ?_, ?_, ?_, ?_, ?_, ?_⟩
  · intro s h1 h2
    unfold moveToNextTopic
    rw [if_neg (by omega)]
  · intro s h
    unfold moveToNextTopic
    rw [if_pos h]
    exact ⟨rfl, rfl⟩
  · intro st a o₁ o₂ o₃ s s2 hs h2
    exact submit_session_cursor st a o₁ o₂ o₃ s s2 hs h2
  · intro k out s
    unfold applyBackgroundVerdict
    repeat' split
    all_goals rfl
  · intro s out
    simp only [prefetchNextTopicQuestion]
    split_ifs <;> (repeat' split) <;> simp
  · intro q a s
    simp
  · intro v s
    simp

/-- C7 witness: concrete advance at the last topic, an earlier topic, and a
concrete submit run. -/
theorem advanceTopic_monotone_bounded_witness :
    moveToNextTopic tSessionLast = (tSessionLast, false) ∧
    ((moveToNextTopic tSessionPre).2 = true ∧
      (moveToNextTopic tSessionPre).1.currentTopicIndex =
        tSessionPre.currentTopicIndex + 1) ∧
    (tSessionPre.currentTopicIndex ≤ tSubmitSession.currentTopicIndex ∧
      (tSubmitSession.currentTopicIndex = tSessionPre.currentTopicIndex ∨
        tSubmitSession.currentTopicIndex < tSessionPre.topics.length)) :=
  ⟨advanceTopic_monotone_bounded.1 tSessionLast (by decide) (by decide),
   advanceTopic_monotone_bounded.2.1 tSessionPre (by decide),
   advanceTopic_monotone_bounded.2.2.1 tAppPre "my answer" (Except.ok none)
     (Except.ok none) (Except.ok none) tSessionPre tSubmitSession rfl (by decide)⟩

/-- C8 (amended): `initializeSession` succeeds exactly on a non-empty topic
list whose topics all have a non-empty name, importance within 1..5 and a
recognized required_level - the code enforces a non-empty name in addition
to the conditions listed in the claim - and on success produces one
not_started topic state with empty history and null verdict per topic, with
cursor 0. -/
theorem initializeSession_spec (topics : List Topic) (apiKey : String)
    (maxQ : Nat) (efs : Bool) :
    ((∃ s, initializeSession topics apiKey maxQ efs = Except.ok s) ↔
      (topics ≠ [] ∧ ∀ t ∈ topics,
        t.name ≠ "" ∧ 1 ≤ t.importance ∧ t.importance ≤ 5 ∧
          (t.required_level = "basic" ∨ t.required_level = "solid" ∨
            t.required_level = "deep"))) ∧
    (∀ s, initializeSession topics apiKey maxQ efs = Except.ok s →
      s.topicStates.length = topics.length ∧
      s.currentTopicIndex = 0 ∧
      (∀ ts ∈ s.topicStates,
        ts = { status := TopicStatus.not_started, qaList := [], verdict := none })) := by
  constructor
  · unfold initializeSession
    by_cases he : topics.isEmpty
    · rw [if_pos he]
      simp [List.isEmpty_iff.mp he]
    · rw [if_neg he]
      cases hf : topics.findSome? topicValidationError with
      | some msg =>
          constructor
          · rintro ⟨s, hs⟩
            cases hs
          · intro ⟨hne, hall⟩
            exfalso
            have : topics.findSome? topicValidationError = none :=
              List.findSome?_eq_none_iff.mpr fun t ht =>
                (topicValidationError_eq_none t).mpr (hall t ht)
            rw [this] at hf
            cases hf
      | none =>
          constructor
          · intro _
            refine ⟨by simpa [List.isEmpty_iff] using he, fun t ht => ?_⟩
            exact (topicValidationError_eq_none t).mp
              (List.findSome?_eq_none_iff.mp hf t ht)
          · intro _
            exact ⟨_, rfl⟩
  · intro s hs
    unfold initializeSession at hs
    by_cases he : topics.isEmpty
    · rw [if_pos he] at hs
      cases hs
    · rw [if_neg he] at hs
      cases hf : topics.findSome? topicValidationError with
      | some msg =>
          rw [hf] at hs
          cases hs
      | none =>
          rw [hf] at hs
          cases hs
          refine ⟨by simp, rfl, ?_⟩
          intro ts hts
          obtain ⟨t, _, rfl⟩ := List.mem_map.mp hts
          rfl

/-- C8 witness: a concrete valid two-topic list initializes successfully
into two not_started states with cursor 0. -/
theorem initializeSession_spec_witness :
    (∃ s, initializeSession [tTopicA, tTopicB] "sk-test" 5 false = Except.ok s) ∧
    (tInitSession.topicStates.length = ([tTopicA, tTopicB] : List Topic).length ∧
      tInitSession.currentTopicIndex = 0 ∧
      (∀ ts ∈ tInitSession.topicStates,
        ts = { status := TopicStatus.not_started, qaList := [], verdict := none })) :=
  ⟨(initializeSession_spec [tTopicA, tTopicB] "sk-test" 5 false).1.mpr (by decide),
   (initializeSession_spec [tTopicA, tTopicB] "sk-test" 5 false).2 tInitSession (by decide)⟩

/-- C8 counterexample: a single-topic list whose topic has an empty name but
importance 3 and required_level basic is rejected by the code, although the
claim promises success whenever the list is non-empty, importance is within
1..5 and the required_level is recognized. -/
theorem initializeSession_claim_cex :
    initializeSession
        [{ name := "", importance := 3, required_level := "basic", merged_from := [] }]
        "sk-test" 5 false = Except.error "missing name" ∧
    ([{ name := "", importance := 3, required_level := "basic",
        merged_from := [] }] : List Topic) ≠ [] ∧
    (1 : Int) ≤ 3 ∧ (3 : Int) ≤ 5 ∧
    ("basic" = "basic" ∨ "basic" = "solid" ∨ "basic" = "deep") := by decide

/-- C9: prefetching is fully isolated: a failed speculative call leaves the
session untouched (the catch handler only logs), and on any outcome the only
session field that can change is the prefetchedQuestions map - the cursor,
topics, topic states, api key, bound, summary flag and background task list
are all preserved. -/
theorem prefetch_isolated (s : Session) (out : Except String (Option TopicAgentOutput)) :
    (prefetchNextTopicQuestion s out).currentTopicIndex = s.currentTopicIndex ∧
    (prefetchNextTopicQuestion s out).topics = s.topics ∧
    (prefetchNextTopicQuestion s out).topicStates = s.topicStates ∧
    (prefetchNextTopicQuestion s out).apiKey = s.apiKey ∧
    (prefetchNextTopicQuestion s out).maxQuestionsPerTopic = s.maxQuestionsPerTopic ∧
    (prefetchNextTopicQuestion s out).enableFinalSummary = s.enableFinalSummary ∧
    (prefetchNextTopicQuestion s out).backgroundVerdictPromises =
      s.backgroundVerdictPromises ∧
    (∀ e, prefetchNextTopicQuestion s (Except.error e) = s) := by
  refine ⟨?_, ?_, ?_, ?_, ?_, ?_, ?_, fun e => ?_⟩
  all_goals simp only [prefetchNextTopicQuestion]
  all_goals split_ifs <;> (repeat' split) <;> simp

/-- C10: the persisted snapshot is independent of the API key: two sessions
equal in every field except `apiKey` are saved as equal cache values, hence
as identical serialized bytes. -/
theorem saveSession_apiKey_independent (s t : Session) (q : Option CurrentQuestion)
    (scr : String) (now : Nat)
    (h1 : s.topics = t.topics) (h2 : s.topicStates = t.topicStates)
    (h3 : s.currentTopicIndex = t.currentTopicIndex)
    (h4 : s.enableFinalSummary = t.enableFinalSummary)
    (h5 : s.maxQuestionsPerTopic = t.maxQuestionsPerTopic)
    (h6 : s.prefetchedQuestions = t.prefetchedQuestions) :
    saveSessionToCache q scr now s = saveSessionToCache q scr now t := by
  unfold saveSessionToCache
  rw [h1, h2, h3, h4, h5, h6]

/-- C1: every background verdict task launched by an answer submission
carries the topic index that was current at launch time (the topic being
left, captured before the cursor moves), and its completion handler writes
the verdict and done status only at that captured index: every other topic
state slot and the cursor of the session at completion time - however far
the cursor has advanced while the task was in flight - are untouched. -/
theorem backgroundVerdict_writes_captured_index (st : AppState) (a : String)
    (o₁ o₂ o₃ : Except String (Option TopicAgentOutput)) (s : Session)
    (t : BgVerdictTask)
    (hs : st.session = some s)
    (ht : t ∈ (handleAnswerSubmit st a o₁ o₂ o₃).2.2) :
    t.capturedIndex = s.currentTopicIndex ∧
    (∀ (s2 : Session) (out : Except String (Option TopicAgentOutput)) (j : Nat),
      j ≠ t.capturedIndex →
      (applyBackgroundVerdict t.capturedIndex out s2).topicStates[j]? =
        s2.topicStates[j]?) ∧
    (∀ (s2 : Session) (out : Except String (Option TopicAgentOutput)),
      (applyBackgroundVerdict t.capturedIndex out s2).currentTopicIndex =
        s2.currentTopicIndex) ∧
    (∀ (s2 : Session) (out : TopicAgentOutput) (ts : TopicState),
      validateTopicAgentFinal (some out) = true →
      s2.topicStates[t.capturedIndex]? = some ts →
      (applyBackgroundVerdict t.capturedIndex
          (Except.ok (some out)) s2).topicStates[t.capturedIndex]? =
        some { ts with verdict := out.verdict, status := TopicStatus.done }) := by
  refine ⟨?_, fun s2 out j hj => applyBg_topicStates_ne _ _ _ _ hj,
    fun s2 out => applyBg_currentTopicIndex _ _ _,
    fun s2 out ts hv hget => applyBg_writes _ _ _ _ hv hget⟩
  obtain ⟨sessOpt, cqOpt, proc⟩ := st
  replace hs : sessOpt = some s := hs
  subst hs
  simp only [handleAnswerSubmit] at ht
  repeat' split at ht
  all_goals simp_all

/-- C1 witness: the concrete prefetched-branch run launches one task with
the pre-advance index 0, whose completion writes only slot 0 even when the
cursor has advanced. -/
theorem backgroundVerdict_writes_captured_index_witness :
    ({ capturedIndex := 0 } : BgVerdictTask).capturedIndex =
      tSessionPre.currentTopicIndex ∧
    (∀ (s2 : Session) (out : Except String (Option TopicAgentOutput)) (j : Nat),
      j ≠ ({ capturedIndex := 0 } : BgVerdictTask).capturedIndex →
      (applyBackgroundVerdict ({ capturedIndex := 0 } : BgVerdictTask).capturedIndex
          out s2).topicStates[j]? = s2.topicStates[j]?) ∧
    (∀ (s2 : Session) (out : Except String (Option TopicAgentOutput)),
      (applyBackgroundVerdict ({ capturedIndex := 0 } : BgVerdictTask).capturedIndex
          out s2).currentTopicIndex = s2.currentTopicIndex) ∧
    (∀ (s2 : Session) (out : TopicAgentOutput) (ts : TopicState),
      validateTopicAgentFinal (some out) = true →
      s2.topicStates[({ capturedIndex := 0 } : BgVerdictTask).capturedIndex]? = some ts →
      (applyBackgroundVerdict ({ capturedIndex := 0 } : BgVerdictTask).capturedIndex
          (Except.ok (some out))
          s2).topicStates[({ capturedIndex := 0 } : BgVerdictTask).capturedIndex]? =
        some { ts with verdict := out.verdict, status := TopicStatus.done }) :=
  backgroundVerdict_writes_captured_index tAppPre "my answer" (Except.ok none)
    (Except.ok none) (Except.ok none) tSessionPre { capturedIndex := 0 } rfl (by decide)

/-- The two-topic session of the C2 scenario: bound 1, nothing prefetched. -/
def c2Session : Session :=
  { apiKey := "sk-test", topics := [tTopicA, tTopicB],
    topicStates :=
      [{ status := TopicStatus.not_started, qaList := [], verdict := none },
       { status := TopicStatus.not_started, qaList := [], verdict := none }],
    currentTopicIndex := 0, enableFinalSummary := false,
    maxQuestionsPerTopic := 1, prefetchedQuestions := [],
    backgroundVerdictPromises := [] }

def c2App : AppState :=
  { session := some c2Session,
    currentQuestion := some { text := "Q1", topicIndex := 0 },
    isProcessing := false }

/-- The session left behind by the C2 counterexample run: the answer was
recorded and the next-question validation failure aborted the submission
after the closing verdict had already been stored. -/
def c2ResultSession : Session :=
  ((handleAnswerSubmit c2App "hello" (Except.ok none) (Except.ok (some tFinalOutA))
    (Except.ok none)).1.session).getD c2Session

/-- C2 counterexample: in the no-prefetch parallel branch the closing
verdict is validated and recorded before the next question response is
validated, so a schema failure of the next question (here a null response)
aborts the submission with the current topic already holding a verdict and
done status - refuting the claim that on such an abort no verdict is set and
no status changes to done. -/
theorem submit_abort_claim_cex :
    (handleAnswerSubmit c2App "hello" (Except.ok none) (Except.ok (some tFinalOutA))
        (Except.ok none)).2.1 =
      SubmitOutcome.errorAborted "TopicAgent did not return a question" ∧
    c2ResultSession.topicStates[0]? =
      some { status := TopicStatus.done,
             qaList := [{ question := "Q1", answer := "hello" }],
             verdict := some tVerdictA } ∧
    c2ResultSession.currentTopicIndex = 0 := by decide

/-- C2 (amended): when a submission aborts with a surfaced error the cursor
has not advanced, no topic state slot other than the current topic is
changed, and no background task list entry is added; the current topic slot
holds at most the recorded answer and - in the branches where the closing
verdict was validated before the failing validation - that verdict with
done status; in the early-final branch the consumed prefetch slot for the
next topic may additionally have been removed. -/
theorem submit_abort_state (st : AppState) (a : String)
    (o₁ o₂ o₃ : Except String (Option TopicAgentOutput)) (s : Session)
    (cq : CurrentQuestion) (msg : String)
    (hs : st.session = some s) (hq : st.currentQuestion = some cq)
    (hab : (handleAnswerSubmit st a o₁ o₂ o₃).2.1 = SubmitOutcome.errorAborted msg) :
    ∃ s2, (handleAnswerSubmit st a o₁ o₂ o₃).1.session = some s2 ∧
      s2.currentTopicIndex = s.currentTopicIndex ∧
      s2.topics = s.topics ∧
      s2.backgroundVerdictPromises = s.backgroundVerdictPromises ∧
      (∀ j, j ≠ s.currentTopicIndex → s2.topicStates[j]? = s.topicStates[j]?) ∧
      (s2 = s ∨ s2 = addQaToCurrentTopic cq.text (jsTrim a) s ∨
        ∃ v, s2 = setCurrentTopicVerdict v (addQaToCurrentTopic cq.text (jsTrim a) s) ∨
          s2 = clearPrefetchedQuestion (s.currentTopicIndex + 1)
                 (setCurrentTopicVerdict v (addQaToCurrentTopic cq.text (jsTrim a) s))) := by
  obtain ⟨sessOpt, cqOpt, proc⟩ := st
  replace hs : sessOpt = some s := hs
  replace hq : cqOpt = some cq := hq
  subst hs
  subst hq
  generalize hr : handleAnswerSubmit
    { session := some s, currentQuestion := some cq, isProcessing := proc }
      a o₁ o₂ o₃ = r at hab ⊢
  simp only [handleAnswerSubmit] at hr
  repeat' split at hr
  all_goals subst hr
  all_goals simp only [submitDone_outcome] at hab
  all_goals
    try (simp only [Option.some.injEq] at *; subst_vars)
  all_goals solve
    | exact ⟨_, rfl, abort_payload s _ cq.text (jsTrim a) (Or.inl rfl)⟩
    | exact ⟨_, rfl, abort_payload s _ cq.text (jsTrim a) (Or.inr (Or.inl rfl))⟩
    | exact ⟨_, rfl, abort_payload s _ cq.text (jsTrim a)
        (Or.inr (Or.inr ⟨_, Or.inl rfl⟩))⟩
    | exact ⟨_, rfl, abort_payload s _ cq.text (jsTrim a)
        (Or.inr (Or.inr ⟨_, Or.inr rfl⟩))⟩
    | (simp only [setVerdict_currentTopicIndex, addQa_currentTopicIndex]
       exact ⟨_, rfl, abort_payload s _ cq.text (jsTrim a)
         (Or.inr (Or.inr ⟨_, Or.inr rfl⟩))⟩)
    | (exfalso; simp_all)

/-- C2 witness: applying the abort-state theorem to the concrete aborted
run. -/
theorem submit_abort_state_witness :
    ∃ s2, (handleAnswerSubmit c2App "hello" (Except.ok none)
        (Except.ok (some tFinalOutA)) (Except.ok none)).1.session = some s2 ∧
      s2.currentTopicIndex = c2Session.currentTopicIndex ∧
      s2.topics = c2Session.topics ∧
      s2.backgroundVerdictPromises = c2Session.backgroundVerdictPromises ∧
      (∀ j, j ≠ c2Session.currentTopicIndex →
        s2.topicStates[j]? = c2Session.topicStates[j]?) ∧
      (s2 = c2Session ∨
        s2 = addQaToCurrentTopic "Q1" (jsTrim "hello") c2Session ∨
        ∃ v, s2 = setCurrentTopicVerdict v
              (addQaToCurrentTopic "Q1" (jsTrim "hello") c2Session) ∨
          s2 = clearPrefetchedQuestion (c2Session.currentTopicIndex + 1)
                 (setCurrentTopicVerdict v
                   (addQaToCurrentTopic "Q1" (jsTrim "hello") c2Session))) :=
  submit_abort_state c2App "hello" (Except.ok none) (Except.ok (some tFinalOutA))
    (Except.ok none) c2Session { text := "Q1", topicIndex := 0 }
    "TopicAgent did not return a question" rfl rfl (by decide)

/-- C3: when a submission leaves the current topic (the bound is reached and
more topics remain) and a prefetch entry of valid ask shape exists for the
next index, the question installed as current is exactly the cached entry
text, the cursor lands on the next topic, and the prefetch slot for that
index is absent afterwards. -/
theorem prefetch_consumed_on_transition (st : AppState) (a : String)
    (o₁ o₂ o₃ : Except String (Option TopicAgentOutput))
    (s : Session) (cq : CurrentQuestion) (e : PrefetchEntry) (q : Question)
    (hp : st.isProcessing = false)
    (hs : st.session = some s)
    (hq : st.currentQuestion = some cq)
    (hva : validateAnswer (jsTrim a) = true)
    (hct : (getCurrentTopic s).isSome)
    (hcs : (getCurrentTopicState s).isSome)
    (hcont : shouldContinueCurrentTopic (addQaToCurrentTopic cq.text (jsTrim a) s) = false)
    (hmore : hasMoreTopics (addQaToCurrentTopic cq.text (jsTrim a) s) = true)
    (hpre : getPrefetchedQuestion (s.currentTopicIndex + 1)
              (addQaToCurrentTopic cq.text (jsTrim a) s) = some e)
    (hqq : e.topicAgentOutput.question = some q)
    (hst : e.topicAgentOutput.status = "ask")
    (hqt : q.text ≠ "")
    (htext : e.text = q.text) :
    ∃ s2, (handleAnswerSubmit st a o₁ o₂ o₃).1.session = some s2 ∧
      (handleAnswerSubmit st a o₁ o₂ o₃).1.currentQuestion =
        some { text := e.text, topicIndex := s.currentTopicIndex + 1 } ∧
      s2.currentTopicIndex = s.currentTopicIndex + 1 ∧
      getPrefetchedQuestion (s.currentTopicIndex + 1) s2 = none := by
  obtain ⟨sessOpt, cqOpt, proc⟩ := st
  replace hp : proc = false := hp
  replace hs : sessOpt = some s := hs
  replace hq : cqOpt = some cq := hq
  subst hp
  subst hs
  subst hq
  obtain ⟨tp, htp⟩ := Option.isSome_iff_exists.mp hct
  obtain ⟨ts0, hts0⟩ := Option.isSome_iff_exists.mp hcs
  have hask : askShapeOk e.topicAgentOutput = true := by
    simp [askShapeOk, hst, hqq, hqt]
  have hmore2 : hasMoreTopics (clearPrefetchedQuestion (s.currentTopicIndex + 1)
      (addQaToCurrentTopic cq.text (jsTrim a) s)) = true := by
    rw [hasMoreTopics_congr _ (addQaToCurrentTopic cq.text (jsTrim a) s)
      (by simp) (by simp)]
    exact hmore
  have hcur : (moveToNextTopic (clearPrefetchedQuestion (s.currentTopicIndex + 1)
      (addQaToCurrentTopic cq.text (jsTrim a) s))).1.currentTopicIndex =
      s.currentTopicIndex + 1 := by
    rw [moveToNextTopic_advances _ hmore2]
    simp
  simp only [handleAnswerSubmit, hva, htp, hts0, hcont, hmore, hask,
    addQa_currentTopicIndex, hpre, not_true, not_false_iff, Bool.false_eq_true,
    if_false, if_true, ite_false, ite_true]
  refine ⟨_, rfl, ?_, ?_, ?_⟩
  · simp only [submitDone_currentQuestion, Option.some.injEq]
    simp [hqq, htext, hcur]
  · rw [addBg_currentTopicIndex, hcur]
  · rw [getPrefetchedQuestion_congr _ _
      (clearPrefetchedQuestion (s.currentTopicIndex + 1)
        (addQaToCurrentTopic cq.text (jsTrim a) s))
      (by simp) (by simp)]
    exact clearPrefetched_getPrefetched_self _ _

/-- C3 witness: the concrete prefetched-branch run consumes the cached entry
for topic 1. -/
theorem prefetch_consumed_on_transition_witness :
    ∃ s2, (handleAnswerSubmit tAppPre "my answer" (Except.ok none) (Except.ok none)
        (Except.ok none)).1.session = some s2 ∧
      (handleAnswerSubmit tAppPre "my answer" (Except.ok none) (Except.ok none)
          (Except.ok none)).1.currentQuestion =
        some { text := "What is a join", topicIndex := tSessionPre.currentTopicIndex + 1 } ∧
      s2.currentTopicIndex = tSessionPre.currentTopicIndex + 1 ∧
      getPrefetchedQuestion (tSessionPre.currentTopicIndex + 1) s2 = none :=
  prefetch_consumed_on_transition tAppPre "my answer" (Except.ok none) (Except.ok none)
    (Except.ok none) tSessionPre { text := "Q2", topicIndex := 0 }
    { text := "What is a join", topicIndex := 1, topicAgentOutput := tAskOutB }
    { text := "What is a join" } rfl rfl rfl (by decide) (by decide) (by decide)
    (by decide) (by decide) (by decide) (by decide) (by decide) (by decide) rfl

/-- C10 witness: two concrete sessions differing only in the API key produce
the same cache value. -/
theorem saveSession_apiKey_independent_witness :
    saveSessionToCache none "interview" 42 tSessionPre =
      saveSessionToCache none "interview" 42 { tSessionPre with apiKey := "other" } :=
  saveSession_apiKey_independent _ _ _ _ _ rfl rfl rfl rfl rfl rfl

end Reviewer
